import Mathlib

/-!
Verification development for the sbayt-cli-anubis repository.

The repository is a pair of `invoke`-based CLI toolkits (`anubis`, `seshat`).
This file gives a shallow embedding of the functions the specification's
claims are about:

* `seshat/utils.py`: `_get_config_from_sources`, `_load_secrets_from_bws`,
  `_aws_ecr_login`, `_get_codeartifact_token`, `_load_deployment_config`,
  `_ensure_tool_installed`;
* `anubis/tasks/spark.py`: `deploy_jobs`, `remove_jobs`.

External effects (file-system existence checks, subprocess invocations,
network downloads) are modelled by oracle inputs and by traces of `Ev`
events, so theorems can speak about which external operations a run
performs and in which order.  Python truthiness of optional strings is
modelled explicitly: `None` and the empty string are falsy.
-/

namespace Sbayt

/-- Python truthiness of an `Optional[str]` value: `None` and `""` are falsy. -/
def pyFalsyStr : Option String → Bool
  | none => true
  | some s => s = ""

/-- Negation of `pyFalsyStr`: a present, non-empty string. -/
def pyTruthyStr (o : Option String) : Bool := !pyFalsyStr o

/-- Python's `a or b` on `Optional[str]` values: returns `b` whenever `a`
is falsy (`None` or the empty string), else `a`. -/
def pyOrStr (a b : Option String) : Option String :=
  if pyFalsyStr a then b else a

/-- Embedding of `seshat/utils.py::_get_config_from_sources` (lines 691-708):
`return os.environ.get(key) or (bws_secrets or {}).get(key) or default`.
`environ` models `os.environ.get`; the secret map is an association list
(Python `dict.get` returns `None` on a missing key, modelled by
`List.lookup`). -/
def _get_config_from_sources (key : String) (environ : String → Option String)
    (bws_secrets : Option (List (String × String)))
    (default : Option String) : Option String :=
  pyOrStr (environ key) (pyOrStr ((bws_secrets.getD []).lookup key) default)

/-! ## JSON values and the Bitwarden secret listing

`_load_secrets_from_bws` (seshat/utils.py lines 240-285) runs
`bws list secrets` and feeds `result.stdout` to `json.loads`.  `JVal`
models an arbitrary parsed JSON value; `parsed = none` models a
`json.JSONDecodeError` (which the source catches), while any other shape
is processed by Python's `for secret in secrets_list` loop and
`secret.get(...)` attribute accesses, whose failures (`TypeError`,
`AttributeError`) the source does not catch. -/

/-- A parsed JSON value, as produced by `json.loads`. -/
inductive JVal where
  | null
  | bool (b : Bool)
  | num (n : Int)
  | str (s : String)
  | arr (xs : List JVal)
  | obj (fields : List (String × JVal))
deriving Repr

/-- Python truthiness of a JSON value: `None`, `False`, `0`, `""`, `[]`
and `\x7b\x7d` are falsy, everything else is truthy. -/
def truthy : JVal → Bool
  | .null => false
  | .bool b => b
  | .num n => n != 0
  | .str s => s ≠ ""
  | .arr xs => !xs.isEmpty
  | .obj fs => !fs.isEmpty

/-- An uncaught Python exception escaping `_load_secrets_from_bws`:
the source catches only `subprocess.CalledProcessError` and
`json.JSONDecodeError`. -/
inductive PyErr where
  | typeError
  | attributeError
deriving DecidableEq, Repr

/-- Python `for secret in secrets_list` on a parsed JSON value: a list
iterates its elements, a string its one-character substrings, a dict its
keys; numbers, booleans and `None` are not iterable (`TypeError`). -/
def iterElems : JVal → Except PyErr (List JVal)
  | .arr xs => .ok xs
  | .str s => .ok (s.toList.map fun c => .str (String.mk [c]))
  | .obj fs => .ok (fs.map fun f => .str f.1)
  | _ => .error .typeError

/-- A JSON value usable as a Python dict key: lists and dicts are
unhashable, so assigning them as keys raises `TypeError`. -/
def hashable : JVal → Bool
  | .arr _ => false
  | .obj _ => false
  | _ => true

/-- Equality of scalar JSON values; `pyInsert` only ever compares
hashable (scalar) keys, since unhashable keys error out before any
insertion. -/
def scalarEq : JVal → JVal → Bool
  | .null, .null => true
  | .bool a, .bool b => a == b
  | .num a, .num b => a == b
  | .str a, .str b => a == b
  | _, _ => false

/-- Python dict assignment `d[k] = v`: overwrite the entry for an
existing key, otherwise append a new entry. -/
def pyInsert (d : List (JVal × JVal)) (k v : JVal) : List (JVal × JVal) :=
  if d.any fun p => scalarEq p.1 k then
    d.map fun p => if scalarEq p.1 k then (k, v) else p
  else
    d ++ [(k, v)]

/-- The body of the `for secret in secrets_list` loop of
`_load_secrets_from_bws` (lines 274-278): for each element,
`secret.get("key")` / `secret.get("value")` require a dict
(anything else raises `AttributeError`); the pair is kept only when both
are truthy (`if key and value`), and storing an unhashable key raises
`TypeError`. -/
def processSecrets : List JVal → List (JVal × JVal) → Except PyErr (List (JVal × JVal))
  | [], acc => .ok acc
  | .obj fs :: rest, acc =>
    let k := (fs.lookup "key").getD .null
    let v := (fs.lookup "value").getD .null
    if truthy k && truthy v then
      if hashable k then processSecrets rest (pyInsert acc k v)
      else .error .typeError
    else processSecrets rest acc
  | _ :: _, _ => .error .attributeError

/-- Embedding of `seshat/utils.py::_load_secrets_from_bws` (lines 240-285).
`token` is the result of `_ensure_bws_token` (falsy means no token),
`toolOk` the result of `_ensure_tool_installed("bws", ...)`, and `parsed`
the result of `json.loads(result.stdout)` (`none` for a parse failure;
the subprocess is run without `check=True`, so a failing command simply
yields unparsable output and the `CalledProcessError` handler is dead
code).  The `JSONDecodeError` handler returns the final `return \x7b\x7d`. -/
def _load_secrets_from_bws (token : Option String) (toolOk : Bool)
    (parsed : Option JVal) : Except PyErr (List (JVal × JVal)) :=
  if pyFalsyStr token then .ok []
  else if !toolOk then .ok []
  else
    match parsed with
    | none => .ok []
    | some j =>
      match iterElems j with
      | .error e => .error e
      | .ok elems => processSecrets elems []

/-! ## Deployment configuration

The YAML deployment descriptor is a dict; the code only ever reads the
keys below (via `config.get`), so the embedding is a record of optional
fields, `none` standing for an absent key. -/

/-- Per-job parameters (`\x7bversion, ...template params\x7d`); their
content is opaque to the control flow modelled here. -/
abbrev JobParams := List (String × String)

/-- The deployment descriptor keys read by the embedded functions. -/
structure DeploymentConfig where
  dags_path : Option String := none
  jobs_path : Option String := none
  aws_account_id : Option String := none
  aws_region : Option String := none
  codeartifact_domain : Option String := none
  load_secrets_from_bws : Option Bool := none
  airflow_dags : Option (List (String × JobParams)) := none
deriving DecidableEq, Repr

/-- Python falsiness of the `airflow_dags` dict: absent key
(`config.get` returns `None`) or an empty dict. -/
def dagsFalsy : Option (List (String × JobParams)) → Bool
  | none => true
  | some l => l.isEmpty

/-! ## External-effect events

Each external operation a run performs is recorded as an event, in
program order. -/

/-- One external operation performed by the embedded tasks. -/
inductive Ev where
  | fetch (pkg : String)
  | extract (pkg : String)
  | render (pkg : String)
  | place (pkg : String)
  | loadSecrets
  | removeTree
  | removeFiles
  | dockerPs
  | dockerDown (svc : String)
  | dockerUp (svc : String)
  | downloadAwsCli
  | credentialRequest
  | tokenRequest
deriving DecidableEq, Repr

/-- The four per-job pipeline steps of `deploy_jobs`. -/
inductive StepKind where
  | fetch
  | extract
  | render
  | place
deriving DecidableEq, Repr

/-- The event recording one pipeline step on one package. -/
def stepEv : StepKind → String → Ev
  | .fetch, p => .fetch p
  | .extract, p => .extract p
  | .render, p => .render p
  | .place, p => .place p

/-- The steps of the per-job loop body of `deploy_jobs`
(spark.py lines 91-107), in source order: `_get_zip_from_codeartifact`,
`_unzip_artifact`, `_render_dag_template`, `_deploy_job_and_dag_files`. -/
def allSteps : List StepKind := [.fetch, .extract, .render, .place]

/-- Final state of one embedded task run. -/
inductive Outcome where
  | ok
  | exit (code : Nat)
  | stepError (pkg : String) (step : StepKind)
deriving DecidableEq, Repr

/-- Run the steps in `ks` for package `pkg`: each step is attempted in
order; `stepOk` tells whether the underlying helper returns normally or
raises, and the first raising step aborts the rest. -/
def runSteps (stepOk : String → StepKind → Bool) (pkg : String) :
    List StepKind → List Ev × Option StepKind
  | [] => ([], none)
  | k :: ks =>
    if stepOk pkg k then
      let r := runSteps stepOk pkg ks
      (stepEv k pkg :: r.1, r.2)
    else ([stepEv k pkg], some k)

/-- The per-job loop of `deploy_jobs` (spark.py lines 88-107): jobs run
strictly sequentially; an exception from any step propagates out of the
loop, so later jobs are not attempted. -/
def runJobs (stepOk : String → StepKind → Bool) :
    List (String × JobParams) → List Ev × Option (String × StepKind)
  | [] => ([], none)
  | j :: rest =>
    let r := runSteps stepOk j.1 allSteps
    match r.2 with
    | some k => (r.1, some (j.1, k))
    | none =>
      let r2 := runJobs stepOk rest
      (r.1 ++ r2.1, r2.2)

/-! ## Service restart step -/

/-- Name of the first service restarted by both tasks. -/
def apacheLivy : String := "apache_livy"

/-- Name of the second service restarted by both tasks. -/
def airflowScheduler : String := "airflow-scheduler"

/-- The two services whose stop/start commands the tasks issue. -/
def declaredServices : List String := [apacheLivy, airflowScheduler]

/-- ASCII whitespace, as stripped by Python's `str.strip()`. -/
def isSpaceChar (c : Char) : Bool :=
  c = ' ' || c = '\t' || c = '\n' || c = '\r'

/-- Python `str.strip()`: remove leading and trailing whitespace. -/
def pyStrip (s : String) : String :=
  String.mk (((s.toList.dropWhile isSpaceChar).reverse.dropWhile isSpaceChar).reverse)

/-- The running-container test of spark.py lines 120 and 186:
`any(line.strip() for line in docker_info.stdout.splitlines())` — true
iff some stdout line is non-blank. -/
def anyRunning (lines : List String) : Bool :=
  lines.any fun l => !(pyStrip l == "")

/-- The service-restart step shared by `deploy_jobs` (spark.py lines
112-147) and `remove_jobs` (lines 177-213): one `docker compose ps`
query, then, only if some container is running, `down` followed by `up`
for `apache_livy` and then for `airflow-scheduler`. -/
def restartIfRunning (lines : List String) : List Ev :=
  Ev.dockerPs ::
    (if anyRunning lines then
      [Ev.dockerDown apacheLivy, Ev.dockerUp apacheLivy,
       Ev.dockerDown airflowScheduler, Ev.dockerUp airflowScheduler]
    else [])

/-! ## Tool bootstrap -/

/-- Outcome oracles for `_ensure_tool_installed("aws", _install_aws_cli)`:
whether `_find_tool` already resolves the binary, and whether the
installer (which downloads the CLI archive) succeeds. -/
structure AwsToolEnv where
  installed : Bool
  installOk : Bool
deriving DecidableEq, Repr

/-- Embedding of `_ensure_tool_installed("aws", _install_aws_cli)`
(seshat/utils.py lines 1078-1099 with the installer of lines 293-347):
if the tool is already found there is nothing to do; otherwise the
installer downloads the AWS CLI archive over the network
(`Ev.downloadAwsCli`) and may fail. -/
def ensureAwsTool (installed installOk : Bool) : List Ev × Bool :=
  if installed then ([], true) else ([Ev.downloadAwsCli], installOk)

/-! ## The deploy-jobs and remove-jobs tasks -/

/-- Oracles for the external world a `deploy_jobs`/`remove_jobs` run
observes: existence of the two destination paths, AWS-tool availability,
the secret map returned by `_load_secrets_from_bws`, the success of each
per-job helper call, and the stdout lines of the `docker compose ps`
query. -/
structure DeployEnv where
  dagsPathExists : Bool
  jobsPathExists : Bool
  awsInstalled : Bool
  awsInstallOk : Bool
  secrets : List (String × String)
  stepOk : String → StepKind → Bool
  psLines : List String

/-- Embedding of `anubis/tasks/spark.py::deploy_jobs` (lines 28-147).
`ls` is the `load_secrets_from_bws` CLI flag (`None` defers to the
config key, whose absent-key default is `True`).  The config has already
been loaded by `_get_cached_config`; path-existence checks, the AWS tool
check, secret loading, the per-job loop, the workspace removal
(`shutil.rmtree`, line 109) and the service-restart step follow the
source order.  With a falsy `airflow_dags` the task returns at line 82,
before the workspace and restart code. -/
def deploy_jobs (cfg : DeploymentConfig) (ls : Option Bool) (env : DeployEnv) :
    List Ev × Outcome :=
  if !env.dagsPathExists then ([], .exit 1)
  else if !env.jobsPathExists then ([], .exit 1)
  else
    let tool := ensureAwsTool env.awsInstalled env.awsInstallOk
    if !tool.2 then (tool.1, .exit 1)
    else
      let loadSecrets := ls.getD (cfg.load_secrets_from_bws.getD true)
      let t2 : List Ev := if loadSecrets then [Ev.loadSecrets] else []
      match cfg.airflow_dags with
      | none => (tool.1 ++ t2, .ok)
      | some dags =>
        if dags.isEmpty then (tool.1 ++ t2, .ok)
        else
          let jr := runJobs env.stepOk dags
          match jr.2 with
          | some pk => (tool.1 ++ t2 ++ jr.1, .stepError pk.1 pk.2)
          | none =>
            (tool.1 ++ t2 ++ jr.1 ++ [Ev.removeTree] ++ restartIfRunning env.psLines,
             .ok)

/-- Embedding of `anubis/tasks/spark.py::remove_jobs` (lines 149-213):
path checks, then `_remove_job_and_dag_files`, then the same
service-restart step as `deploy_jobs`. -/
def remove_jobs (env : DeployEnv) : List Ev × Outcome :=
  if !env.dagsPathExists then ([], .exit 1)
  else if !env.jobsPathExists then ([], .exit 1)
  else (Ev.removeFiles :: restartIfRunning env.psLines, .ok)

/-! ## AWS credential functions -/

/-- Name of the access-key environment variable (seshat/utils.py line 84). -/
def AWS_KEY_ID_VARIABLE_NAME : String := "AWS_ACCESS_KEY_ID"

/-- Name of the secret-key environment variable (line 85). -/
def AWS_SECRET_VARIABLE_NAME : String := "AWS_SECRET_ACCESS_KEY"

/-- Name of the session-token environment variable (line 86). -/
def AWS_TOKEN_VARIABLE_NAME : String := "AWS_SESSION_TOKEN"

/-- Events classed as network calls: the tool-installer download, the
ECR credential request (`aws ecr get-login-password | docker login`) and
the CodeArtifact token request. -/
def isNetworkEv : Ev → Bool
  | .downloadAwsCli => true
  | .credentialRequest => true
  | .tokenRequest => true
  | _ => false

/-- Result of `_aws_ecr_login`: either the process exits via
`invoke.Exit`, or the function returns a value (`True`/`False`). -/
inductive LoginResult where
  | exited (code : Nat)
  | returned (b : Bool)
deriving DecidableEq, Repr

/-- Embedding of `seshat/utils.py::_aws_ecr_login` (lines 426-501), in
source order: the AWS-tool check (which may download the CLI), then
`_get_aws_account_id` / `_get_aws_region` (each raising `Exit(code=1)`
on a falsy config value, lines 380-423), then the three-tier credential
lookups, then the credential check, and finally the login subprocess.
The login command is run WITHOUT `check=True` (line 491), so its exit
status — the `loginExitCode` argument — is discarded and the function
returns `True` unconditionally; the `CalledProcessError` handler of
lines 498-500 is unreachable. -/
def _aws_ecr_login (cfg : DeploymentConfig) (environ : String → Option String)
    (bws_secrets : List (String × String)) (tool : AwsToolEnv)
    (_loginExitCode : Nat) : List Ev × LoginResult :=
  let t0 := ensureAwsTool tool.installed tool.installOk
  if !t0.2 then (t0.1, .returned false)
  else if pyFalsyStr cfg.aws_account_id then (t0.1, .exited 1)
  else if pyFalsyStr cfg.aws_region then (t0.1, .exited 1)
  else
    let ak := _get_config_from_sources AWS_KEY_ID_VARIABLE_NAME environ (some bws_secrets) none
    let sk := _get_config_from_sources AWS_SECRET_VARIABLE_NAME environ (some bws_secrets) none
    if pyTruthyStr ak && pyTruthyStr sk then
      (t0.1 ++ [Ev.credentialRequest], .returned true)
    else (t0.1, .returned false)

/-- Result of `_get_codeartifact_token`: an `Exit`, a `None` return
(missing credentials or tool), or the token string. -/
inductive TokenResult where
  | exited (code : Nat)
  | noToken
  | token (t : String)
deriving DecidableEq, Repr

/-- Embedding of `seshat/utils.py::_get_codeartifact_token` (lines
503-585), in source order: the AWS-tool check, account-id and region
lookups (`Exit(1)` on falsy values), the three-tier credential lookups
and the credential check (returning `None` when incomplete), the domain
lookup (`Exit(1)` when unconfigured), then the token subprocess — run
with `check=True`, so a non-zero `cmdExitCode` becomes an `Exit(1)`, as
does an absent or falsy `authorizationToken` field (`respToken`). -/
def _get_codeartifact_token (cfg : DeploymentConfig)
    (environ : String → Option String) (bws_secrets : List (String × String))
    (tool : AwsToolEnv) (cmdExitCode : Nat) (respToken : Option String) :
    List Ev × TokenResult :=
  let t0 := ensureAwsTool tool.installed tool.installOk
  if !t0.2 then (t0.1, .noToken)
  else if pyFalsyStr cfg.aws_account_id then (t0.1, .exited 1)
  else if pyFalsyStr cfg.aws_region then (t0.1, .exited 1)
  else
    let ak := _get_config_from_sources AWS_KEY_ID_VARIABLE_NAME environ (some bws_secrets) none
    let sk := _get_config_from_sources AWS_SECRET_VARIABLE_NAME environ (some bws_secrets) none
    if !(pyTruthyStr ak && pyTruthyStr sk) then (t0.1, .noToken)
    else if pyFalsyStr cfg.codeartifact_domain then (t0.1, .exited 1)
    else if cmdExitCode != 0 then (t0.1 ++ [Ev.tokenRequest], .exited 1)
    else if pyFalsyStr respToken then (t0.1 ++ [Ev.tokenRequest], .exited 1)
    else (t0.1 ++ [Ev.tokenRequest], .token (respToken.getD ""))

/-! ## Deployment config loading -/

/-- Failure of `_load_deployment_config`: an explicit `Exit(code=1)` for
a missing file, or a re-raised `yaml.YAMLError` for a malformed one. -/
inductive LoadErr where
  | exitErr (code : Nat)
  | yamlErr
deriving DecidableEq, Repr

/-- The empty deployment config (`yaml.safe_load` of an empty file is
`None`, turned into `\x7b\x7d` by the `or \x7b\x7d` of line 685). -/
def emptyConfig : DeploymentConfig := {}

/-- Embedding of `seshat/utils.py::_load_deployment_config` (lines
661-688): `Exit(code=1)` when the path does not exist; otherwise the
file is parsed — `parsed = .error ()` models a `yaml.YAMLError`, which
is logged and re-raised, and `parsed = .ok none` models `safe_load`
returning `None` (an empty file), which yields the empty config. -/
def _load_deployment_config (pathExists : Bool)
    (parsed : Except Unit (Option DeploymentConfig)) :
    Except LoadErr DeploymentConfig :=
  if !pathExists then .error (.exitErr 1)
  else
    match parsed with
    | .error _ => .error .yamlErr
    | .ok v => .ok (v.getD emptyConfig)

/-- Whether a `_load_deployment_config` outcome terminates the process
with a non-zero exit status: `invoke.Exit(code=1)` does directly, and an
uncaught `yaml.YAMLError` makes the interpreter exit with status 1. -/
def terminalNonzeroExit : Except LoadErr DeploymentConfig → Bool
  | .error (.exitErr c) => c != 0
  | .error .yamlErr => true
  | .ok _ => false

/-! ## Destination-directory contents (modelled from the spec)

`_deploy_job_and_dag_files` and `_remove_job_and_dag_files` live in
`anubis/utils.py`, which is not among the provided sources — spark.py
only imports and calls them.  Their effect on the destination
directories is therefore modelled from the spec. -/

/-- Modelled from the spec: `_deploy_job_and_dag_files` of the missing
`anubis/utils.py`.  Spec section 4.4: `place(directory, dagsPath,
jobsPath)` "copies the rendered descriptor into `dagsPath` and the
remaining job artifacts into `jobsPath`".  A directory is modelled as
the list of its file names; placing adds the rendered files to each
destination. -/
def _deploy_job_and_dag_files (renderedDags renderedJobs dags jobs : List String) :
    List String × List String :=
  (dags ++ renderedDags, jobs ++ renderedJobs)

/-- Modelled from the spec: `_remove_job_and_dag_files` of the missing
`anubis/utils.py`.  Spec section 4.4: `remove_all(dagsPath, jobsPath)`
"deletes previously placed descriptor and job files, restoring the
destination directories to an empty/placeholder state"; the `remove_jobs`
docstring calls this "restoration of the folder structure".  The
restored placeholder state is the empty directory pair, independent of
the directories' prior contents (the function receives only the two
paths, so it cannot know which files a particular deployment added). -/
def _remove_job_and_dag_files (_dags _jobs : List String) :
    List String × List String :=
  ([], [])

/-! ## Event classification predicates and concrete instances -/

/-- Events of the per-job fetch/extract/render/place pipeline. -/
def isJobStepEv : Ev → Bool
  | .fetch _ => true
  | .extract _ => true
  | .render _ => true
  | .place _ => true
  | _ => false

/-- Events of the service-restart step (the `ps` query and the
stop/start commands). -/
def isDockerEv : Ev → Bool
  | .dockerPs => true
  | .dockerDown _ => true
  | .dockerUp _ => true
  | _ => false

/-- Stop and start commands only (excluding the `ps` query). -/
def isStopOrStart : Ev → Bool
  | .dockerDown _ => true
  | .dockerUp _ => true
  | _ => false

/-- Whether an `Except` result is a normal return (no exception). -/
def isOkE : Except PyErr (List (JVal × JVal)) → Bool
  | .ok _ => true
  | .error _ => false

/-- A config with no `airflow_dags` key (and everything else absent). -/
def cfgNoDags : DeploymentConfig := {}

/-- An environment where both destination paths exist, the AWS CLI is
installed, and the `docker compose ps` query reports one running
container. -/
def envRunningContainer : DeployEnv where
  dagsPathExists := true
  jobsPathExists := true
  awsInstalled := true
  awsInstallOk := true
  secrets := []
  stepOk := fun _ _ => true
  psLines := ["c0ffee"]

/-- A config declaring a single job `pkgA`. -/
def cfgOneJob : DeploymentConfig := { airflow_dags := some [("pkgA", [])] }

/-- An environment where the `_get_zip_from_codeartifact` call of every
job raises, while everything else succeeds. -/
def envFetchFails : DeployEnv where
  dagsPathExists := true
  jobsPathExists := true
  awsInstalled := true
  awsInstallOk := true
  secrets := []
  stepOk := fun _ k => match k with | .fetch => false | _ => true
  psLines := []

/-- An `os.environ` in which the access-key variable is set, but to the
empty string. -/
def environSetEmpty : String → Option String := fun k =>
  if k = "AWS_ACCESS_KEY_ID" then some "" else none

/-- A deployment config with no `aws_account_id` key. -/
def cfgMissingAcct : DeploymentConfig := {}

/-- Tool state where the AWS CLI is not yet installed and installation
succeeds. -/
def toolAbsent : AwsToolEnv := ⟨false, true⟩

/-- Tool state where the AWS CLI is already installed. -/
def toolPresent : AwsToolEnv := ⟨true, true⟩

/-- A config carrying account id and region. -/
def cfgFullAws : DeploymentConfig :=
  { aws_account_id := some "123456789012", aws_region := some "us-east-1" }

/-- An `os.environ` supplying both AWS credentials. -/
def environAwsCreds : String → Option String := fun k =>
  if k = "AWS_ACCESS_KEY_ID" then some "AKIAEXAMPLE"
  else if k = "AWS_SECRET_ACCESS_KEY" then some "secretExample" else none

/-! # Theorems -/

/-! ## Helper lemmas about traces -/

/-- Every event of the tool-bootstrap trace is the installer download. -/
theorem ensureAwsTool_events (a b : Bool) :
    ∀ e ∈ (ensureAwsTool a b).1, e = Ev.downloadAwsCli := by
  cases a <;> simp [ensureAwsTool]

/-- Step events are job-step events. -/
theorem isJobStepEv_stepEv (k : StepKind) (p : String) :
    isJobStepEv (stepEv k p) = true := by
  cases k <;> rfl

/-- Every event emitted by `runSteps` is a job-step event. -/
theorem runSteps_events (f : String → StepKind → Bool) (p : String)
    (ks : List StepKind) : ∀ e ∈ (runSteps f p ks).1, isJobStepEv e = true := by
  induction ks with
  | nil => simp [runSteps]
  | cons k ks ih =>
    intro e he
    by_cases h : f p k
    · simp only [runSteps, h, if_true, List.mem_cons] at he
      rcases he with rfl | he
      · exact isJobStepEv_stepEv k p
      · exact ih e he
    · simp [runSteps, h] at he
      subst he
      exact isJobStepEv_stepEv k p

/-- Every event emitted by the per-job loop is a job-step event. -/
theorem runJobs_events (f : String → StepKind → Bool)
    (l : List (String × JobParams)) :
    ∀ e ∈ (runJobs f l).1, isJobStepEv e = true := by
  induction l with
  | nil => simp [runJobs]
  | cons j rest ih =>
    intro e he
    simp only [runJobs] at he
    rcases hr : (runSteps f j.1 allSteps).2 with _ | k
    · rw [hr] at he
      simp only [List.mem_append] at he
      rcases he with he | he
      · exact runSteps_events f j.1 allSteps e he
      · exact ih e he
    · rw [hr] at he
      exact runSteps_events f j.1 allSteps e he

/-- The secret-loading sub-trace holds at most the `loadSecrets` event. -/
theorem t2_events (b : Bool) :
    ∀ e ∈ (if b then [Ev.loadSecrets] else []), e = Ev.loadSecrets := by
  cases b <;> simp

/-- Every event of the service-restart step is a docker event. -/
theorem restartIfRunning_events (lines : List String) :
    ∀ e ∈ restartIfRunning lines, isDockerEv e = true := by
  intro e he
  by_cases h : anyRunning lines
  · simp [restartIfRunning, h] at he
    rcases he with rfl | rfl | rfl | rfl | rfl <;> rfl
  · simp [restartIfRunning, h] at he
    subst he
    rfl

/-- Python `a or b` returns `b` when `a` is falsy. -/
theorem pyOrStr_falsy (a b : Option String) (h : pyFalsyStr a = true) :
    pyOrStr a b = b := by
  simp [pyOrStr, h]

/-- Python `a or b` returns `a` when `a` is truthy. -/
theorem pyOrStr_truthy (a b : Option String) (h : pyFalsyStr a = false) :
    pyOrStr a b = a := by
  simp [pyOrStr, h]

/-- A present, non-empty string is truthy. -/
theorem pyFalsyStr_some_ne (v : String) (h : v ≠ "") :
    pyFalsyStr (some v) = false := by
  simp [pyFalsyStr, h]

/-! ## C2 — three-tier configuration lookup -/

/-- C2 counterexample: the claim says that whenever the environment
variable named by the key is set, `_get_config_from_sources` returns the
environment variable's value.  Here `AWS_ACCESS_KEY_ID` is set — to the
empty string — yet the function returns the secret-map value
`"fromSecretMap"`, not the environment value `""`: Python's `or` chain
lets a set-but-empty environment variable lose. -/
theorem get_config_from_sources_env_set_loses_cex :
    environSetEmpty "AWS_ACCESS_KEY_ID" = some "" ∧
    _get_config_from_sources "AWS_ACCESS_KEY_ID" environSetEmpty
      (some [("AWS_ACCESS_KEY_ID", "fromSecretMap")]) none = some "fromSecretMap" ∧
    (some "fromSecretMap" : Option String) ≠ some "" := by
  refine ⟨by decide, by decide, by decide⟩

/-- C2 (amended): in the three-tier lookup `_get_config_from_sources`,
a NON-EMPTY environment value always wins; when the environment variable
is unset or empty, a non-empty secret-map value wins; and when both
tiers are falsy the default is returned. -/
theorem get_config_from_sources_priority (key : String)
    (environ : String → Option String)
    (bws_secrets : Option (List (String × String))) (default : Option String) :
    (∀ v, environ key = some v → v ≠ "" →
      _get_config_from_sources key environ bws_secrets default = some v) ∧
    (pyFalsyStr (environ key) = true →
      (∀ v, (bws_secrets.getD []).lookup key = some v → v ≠ "" →
        _get_config_from_sources key environ bws_secrets default = some v) ∧
      (pyFalsyStr ((bws_secrets.getD []).lookup key) = true →
        _get_config_from_sources key environ bws_secrets default = default)) := by
  refine ⟨?_, fun h => ⟨?_, ?_⟩⟩
  · intro v hv hne
    unfold _get_config_from_sources
    rw [hv, pyOrStr_truthy _ _ (pyFalsyStr_some_ne v hne)]
  · intro v hv hne
    unfold _get_config_from_sources
    rw [pyOrStr_falsy _ _ h, hv, pyOrStr_truthy _ _ (pyFalsyStr_some_ne v hne)]
  · intro h2
    unfold _get_config_from_sources
    rw [pyOrStr_falsy _ _ h, pyOrStr_falsy _ _ h2]

/-- Witness for C2's amended theorem at concrete inputs: a non-empty
environment value wins; with the environment unset, a non-empty
secret-map value wins; with both absent, the default is returned. -/
theorem get_config_from_sources_priority_witness :
    _get_config_from_sources "K" (fun _ => some "envVal") none none = some "envVal" ∧
    _get_config_from_sources "K" (fun _ => none)
      (some [("K", "secretVal")]) none = some "secretVal" ∧
    _get_config_from_sources "K" (fun _ => none) none (some "fallback")
      = some "fallback" := by
  refine ⟨?_, ?_, ?_⟩
  · exact (get_config_from_sources_priority "K" (fun _ => some "envVal")
      none none).1 "envVal" rfl (by decide)
  · exact ((get_config_from_sources_priority "K" (fun _ => none)
      (some [("K", "secretVal")]) none).2 rfl).1 "secretVal" (by decide) (by decide)
  · exact ((get_config_from_sources_priority "K" (fun _ => none)
      none (some "fallback")).2 rfl).2 rfl

/-! ## C8 — deployment-config loading -/

/-- C8: `_load_deployment_config` fails with a terminal error (non-zero
process exit) when the file does not exist or fails to parse as YAML,
and an existing empty file (`yaml.safe_load` returning `None`) yields
the empty config rather than failing. -/
theorem load_deployment_config_spec
    (parsed : Except Unit (Option DeploymentConfig)) :
    terminalNonzeroExit (_load_deployment_config false parsed) = true ∧
    terminalNonzeroExit (_load_deployment_config true (.error ())) = true ∧
    _load_deployment_config true (.ok none) = .ok emptyConfig := by
  exact ⟨rfl, rfl, rfl⟩

/-! ## C1 — deploy-jobs with an empty job map -/

/-- C1 counterexample: the claim says that with an empty/absent
`airflow_dags` map the pipeline still proceeds to the service-restart
check and runs the running-container query (and, containers being
running, the stop/start commands).  With such a config, existing paths,
an installed AWS CLI and one running container, `deploy_jobs` returns
at the `return` of spark.py line 82 with an empty trace: no `docker
compose ps` query and no stop/start command is ever issued. -/
theorem deploy_jobs_empty_dags_cex :
    dagsFalsy cfgNoDags.airflow_dags = true ∧
    anyRunning envRunningContainer.psLines = true ∧
    deploy_jobs cfgNoDags (some false) envRunningContainer = ([], .ok) ∧
    Ev.dockerPs ∉ (deploy_jobs cfgNoDags (some false) envRunningContainer).1 := by
  have h : deploy_jobs cfgNoDags (some false) envRunningContainer = ([], .ok) := by
    rfl
  refine ⟨rfl, by decide, h, ?_⟩
  rw [h]
  exact List.not_mem_nil _

/-- C1 (amended): for every config whose `airflow_dags` map is empty or
absent (and whose destination paths exist and AWS tool check passes),
`deploy_jobs` performs zero fetch/extract/render/place operations and
returns early WITHOUT the service-restart check: no running-container
query and no stop/start command is issued. -/
theorem deploy_jobs_empty_dags (cfg : DeploymentConfig) (ls : Option Bool)
    (env : DeployEnv)
    (hd : dagsFalsy cfg.airflow_dags = true)
    (h1 : env.dagsPathExists = true) (h2 : env.jobsPathExists = true)
    (h3 : (ensureAwsTool env.awsInstalled env.awsInstallOk).2 = true) :
    (deploy_jobs cfg ls env).2 = .ok ∧
    (deploy_jobs cfg ls env).1.countP isJobStepEv = 0 ∧
    (deploy_jobs cfg ls env).1.countP isDockerEv = 0 := by
  have htr :
      (deploy_jobs cfg ls env).1 = (ensureAwsTool env.awsInstalled env.awsInstallOk).1 ++
        (if ls.getD (cfg.load_secrets_from_bws.getD true) then [Ev.loadSecrets] else []) ∧
      (deploy_jobs cfg ls env).2 = .ok := by
    unfold deploy_jobs
    rw [h1, h2]
    rcases hda : cfg.airflow_dags with _ | dags
    · simp [h3]
    · have he : dags.isEmpty = true := by simpa [dagsFalsy, hda] using hd
      simp [h3, he]
  refine ⟨htr.2, ?_, ?_⟩ <;> rw [htr.1, List.countP_eq_zero] <;> intro e he <;>
    rcases List.mem_append.1 he with h' | h'
  · rcases ensureAwsTool_events _ _ e h' with rfl
    simp [isJobStepEv]
  · rcases t2_events _ e h' with rfl
    simp [isJobStepEv]
  · rcases ensureAwsTool_events _ _ e h' with rfl
    simp [isDockerEv]
  · rcases t2_events _ e h' with rfl
    simp [isDockerEv]

/-- Witness for C1's amended theorem: the concrete empty-map run returns
normally with no job-step and no docker event. -/
theorem deploy_jobs_empty_dags_witness :
    (deploy_jobs cfgNoDags none envRunningContainer).2 = .ok ∧
    (deploy_jobs cfgNoDags none envRunningContainer).1.countP isJobStepEv = 0 ∧
    (deploy_jobs cfgNoDags none envRunningContainer).1.countP isDockerEv = 0 :=
  deploy_jobs_empty_dags cfgNoDags none envRunningContainer rfl rfl rfl rfl

/-! ## C3 — workspace cleanup -/

/-- `removeTree` never occurs in the tool-bootstrap trace. -/
theorem removeTree_not_in_tool (a b : Bool) :
    Ev.removeTree ∉ (ensureAwsTool a b).1 := by
  intro h
  have := ensureAwsTool_events a b _ h
  simp at this

/-- `removeTree` never occurs in the secret-loading trace. -/
theorem removeTree_not_in_t2 (b : Bool) :
    Ev.removeTree ∉ (if b then [Ev.loadSecrets] else []) := by
  intro h
  have := t2_events b _ h
  simp at this

/-- `removeTree` never occurs in the per-job loop trace. -/
theorem removeTree_not_in_runJobs (f : String → StepKind → Bool)
    (l : List (String × JobParams)) : Ev.removeTree ∉ (runJobs f l).1 := by
  intro h
  have := runJobs_events f l _ h
  simp [isJobStepEv] at this

/-- `removeTree` never occurs in the service-restart trace. -/
theorem removeTree_not_in_restart (lines : List String) :
    Ev.removeTree ∉ restartIfRunning lines := by
  intro h
  have := restartIfRunning_events lines _ h
  simp [isDockerEv] at this

/-- C3 counterexample: the claim says the workspace is removed even when
a job step fails mid-loop.  With one declared job whose artifact
download (`_get_zip_from_codeartifact`) raises, the exception propagates
out of `deploy_jobs` and `shutil.rmtree` (spark.py line 109, a plain
statement after the loop, not a `finally` block) never runs: the trace
contains no workspace removal. -/
theorem deploy_jobs_cleanup_cex :
    cfgOneJob.airflow_dags = some [("pkgA", [])] ∧
    (deploy_jobs cfgOneJob (some false) envFetchFails).2
      = .stepError "pkgA" .fetch ∧
    Ev.removeTree ∉ (deploy_jobs cfgOneJob (some false) envFetchFails).1 := by
  have h : deploy_jobs cfgOneJob (some false) envFetchFails
      = ([Ev.fetch "pkgA"], .stepError "pkgA" .fetch) := by rfl
  refine ⟨rfl, by rw [h], ?_⟩
  rw [h]
  simp

/-- C3 (amended): in a `deploy_jobs` run with a non-empty job map
(paths existing, tool check passing), if every per-job step returns
normally the workspace is removed exactly once, after the per-job loop;
but if some job step raises mid-loop, the exception propagates and the
workspace is NOT removed (and the service-restart step is skipped
too). -/
theorem deploy_jobs_cleanup (cfg : DeploymentConfig) (ls : Option Bool)
    (env : DeployEnv) (dags : List (String × JobParams))
    (hd : cfg.airflow_dags = some dags) (hne : dags.isEmpty = false)
    (h1 : env.dagsPathExists = true) (h2 : env.jobsPathExists = true)
    (h3 : (ensureAwsTool env.awsInstalled env.awsInstallOk).2 = true) :
    ((runJobs env.stepOk dags).2 = none →
      (deploy_jobs cfg ls env).1.count Ev.removeTree = 1) ∧
    (∀ pkg k, (runJobs env.stepOk dags).2 = some (pkg, k) →
      (deploy_jobs cfg ls env).2 = .stepError pkg k ∧
      Ev.removeTree ∉ (deploy_jobs cfg ls env).1) := by
  constructor
  · intro hjr
    have htr : (deploy_jobs cfg ls env).1 =
        (ensureAwsTool env.awsInstalled env.awsInstallOk).1 ++
        ((if ls.getD (cfg.load_secrets_from_bws.getD true) then [Ev.loadSecrets] else []) ++
         ((runJobs env.stepOk dags).1 ++
          ([Ev.removeTree] ++ restartIfRunning env.psLines))) := by
      unfold deploy_jobs
      rw [h1, h2, hd]
      simp [h3, hne, hjr]
    rw [htr]
    simp only [List.count_append]
    rw [List.count_eq_zero.2 (removeTree_not_in_tool _ _),
      List.count_eq_zero.2 (removeTree_not_in_t2 _),
      List.count_eq_zero.2 (removeTree_not_in_runJobs _ _),
      List.count_eq_zero.2 (removeTree_not_in_restart _)]
    rfl
  · intro pkg k hjr
    have htr : (deploy_jobs cfg ls env).1 =
        (ensureAwsTool env.awsInstalled env.awsInstallOk).1 ++
        ((if ls.getD (cfg.load_secrets_from_bws.getD true) then [Ev.loadSecrets] else []) ++
         (runJobs env.stepOk dags).1) ∧
        (deploy_jobs cfg ls env).2 = .stepError pkg k := by
      unfold deploy_jobs
      rw [h1, h2, hd]
      simp [h3, hne, hjr]
    refine ⟨htr.2, ?_⟩
    rw [htr.1]
    intro hmem
    rcases List.mem_append.1 hmem with h' | h'
    · exact removeTree_not_in_tool _ _ h'
    · rcases List.mem_append.1 h' with h'' | h''
      · exact removeTree_not_in_t2 _ h''
      · exact removeTree_not_in_runJobs _ _ h''

/-- Witness for C3's amended theorem: with one job whose four steps all
succeed, the workspace removal happens exactly once; the failing-fetch
run of the same shape is covered by the second conjunct. -/
theorem deploy_jobs_cleanup_witness :
    (deploy_jobs cfgOneJob (some false) envRunningContainer).1.count Ev.removeTree = 1 ∧
    Ev.removeTree ∉ (deploy_jobs cfgOneJob (some false) envFetchFails).1 :=
  ⟨(deploy_jobs_cleanup cfgOneJob (some false) envRunningContainer [("pkgA", [])]
      rfl rfl rfl rfl rfl).1 rfl,
   ((deploy_jobs_cleanup cfgOneJob (some false) envFetchFails [("pkgA", [])]
      rfl rfl rfl rfl rfl).2 "pkgA" .fetch rfl).2⟩

/-! ## C6 — service-restart commands -/

/-- C6: in the service-restart step shared by `deploy_jobs` and
`remove_jobs`, if the running-container query reports no running
container (every stdout line blank), zero stop/start commands are
issued; if it reports at least one, then for each of the two declared
services exactly one `down` and exactly one `up` command is issued, with
the `down` preceding the `up`. -/
theorem restart_if_running_commands (lines : List String) :
    (anyRunning lines = false →
      (restartIfRunning lines).countP isStopOrStart = 0) ∧
    (anyRunning lines = true →
      ∀ svc ∈ declaredServices,
        (restartIfRunning lines).count (Ev.dockerDown svc) = 1 ∧
        (restartIfRunning lines).count (Ev.dockerUp svc) = 1 ∧
        (restartIfRunning lines).indexOf (Ev.dockerDown svc) <
          (restartIfRunning lines).indexOf (Ev.dockerUp svc)) := by
  constructor
  · intro h
    simp only [restartIfRunning, h, if_false]
    decide
  · intro h svc hsvc
    simp only [restartIfRunning, h, if_true]
    rcases (by simpa [declaredServices] using hsvc :
        svc = apacheLivy ∨ svc = airflowScheduler) with rfl | rfl <;>
      refine ⟨by decide, by decide, by decide⟩

/-- Witness for C6: with blank `ps` output no stop/start command is
issued; with one running container, `apache_livy` gets exactly one
`down` command. -/
theorem restart_if_running_commands_witness :
    (restartIfRunning ["", "  "]).countP isStopOrStart = 0 ∧
    (restartIfRunning ["abc123"]).count (Ev.dockerDown apacheLivy) = 1 :=
  ⟨(restart_if_running_commands ["", "  "]).1 (by decide),
   (((restart_if_running_commands ["abc123"]).2 (by decide)) apacheLivy
      (by simp [declaredServices])).1⟩

/-! ## C5 — missing cloud account id -/

/-- C5 counterexample: the claim says that with the cloud account id
missing from the config, `_aws_ecr_login` fails before ANY network call,
tool-installer downloads included.  But the AWS-tool check runs first:
with the CLI not yet installed, the installer's download (a network
call) is performed before the account-id check raises `Exit(1)` — the
trace contains one network event. -/
theorem aws_missing_account_id_cex :
    pyFalsyStr cfgMissingAcct.aws_account_id = true ∧
    (_aws_ecr_login cfgMissingAcct (fun _ => none) [] toolAbsent 0).2 = .exited 1 ∧
    (_aws_ecr_login cfgMissingAcct (fun _ => none) [] toolAbsent 0).1.countP
      isNetworkEv = 1 := by
  refine ⟨rfl, rfl, rfl⟩

/-- C5 (amended): with the cloud account id missing from the config and
the AWS-tool check passing, both `_aws_ecr_login` and
`_get_codeartifact_token` raise `Exit(1)` before any credential or
token network request is attempted — but only AFTER the tool check,
which may itself download the AWS CLI installer (the only network event
possibly in the trace). -/
theorem aws_missing_account_id_exits_first (cfg : DeploymentConfig)
    (environ : String → Option String) (bws_secrets : List (String × String))
    (tool : AwsToolEnv) (e ce : Nat) (resp : Option String)
    (hacct : pyFalsyStr cfg.aws_account_id = true)
    (htool : (ensureAwsTool tool.installed tool.installOk).2 = true) :
    (_aws_ecr_login cfg environ bws_secrets tool e).2 = .exited 1 ∧
    (∀ ev ∈ (_aws_ecr_login cfg environ bws_secrets tool e).1,
      isNetworkEv ev = true → ev = Ev.downloadAwsCli) ∧
    (_get_codeartifact_token cfg environ bws_secrets tool ce resp).2 = .exited 1 ∧
    (∀ ev ∈ (_get_codeartifact_token cfg environ bws_secrets tool ce resp).1,
      isNetworkEv ev = true → ev = Ev.downloadAwsCli) := by
  have hl : _aws_ecr_login cfg environ bws_secrets tool e
      = ((ensureAwsTool tool.installed tool.installOk).1, .exited 1) := by
    unfold _aws_ecr_login
    simp [htool, hacct]
  have ht : _get_codeartifact_token cfg environ bws_secrets tool ce resp
      = ((ensureAwsTool tool.installed tool.installOk).1, .exited 1) := by
    unfold _get_codeartifact_token
    simp [htool, hacct]
  refine ⟨by rw [hl], ?_, by rw [ht], ?_⟩
  · rw [hl]
    exact fun ev hev _ => ensureAwsTool_events _ _ ev hev
  · rw [ht]
    exact fun ev hev _ => ensureAwsTool_events _ _ ev hev

/-- Witness for C5's amended theorem: with an empty config and the CLI
already installed, both functions exit with code 1 and their traces hold
no network event at all. -/
theorem aws_missing_account_id_exits_first_witness :
    (_aws_ecr_login cfgMissingAcct (fun _ => none) [] toolPresent 0).2 = .exited 1 ∧
    (_get_codeartifact_token cfgMissingAcct (fun _ => none) [] toolPresent 0 none).2
      = .exited 1 := by
  have h := aws_missing_account_id_exits_first cfgMissingAcct (fun _ => none) []
    toolPresent 0 0 none rfl rfl
  exact ⟨h.1, h.2.2.1⟩

/-! ## C9 — ECR login ignores the login command's exit status -/

/-- C9: whenever the AWS tool is available and account id, region,
access key and secret key all resolve to truthy values,
`_aws_ecr_login` returns `True` for EVERY exit status of the
registry-login subprocess: the command is run without `check=True`
(seshat/utils.py line 491), so the `CalledProcessError` branch of lines
498-500 that would log an authentication error and return a falsy value
is unreachable. -/
theorem aws_ecr_login_ignores_exit_status (cfg : DeploymentConfig)
    (environ : String → Option String) (bws_secrets : List (String × String))
    (tool : AwsToolEnv)
    (hinst : tool.installed = true)
    (hacct : pyFalsyStr cfg.aws_account_id = false)
    (hreg : pyFalsyStr cfg.aws_region = false)
    (hak : pyTruthyStr (_get_config_from_sources AWS_KEY_ID_VARIABLE_NAME
      environ (some bws_secrets) none) = true)
    (hsk : pyTruthyStr (_get_config_from_sources AWS_SECRET_VARIABLE_NAME
      environ (some bws_secrets) none) = true) :
    ∀ loginExitCode : Nat,
      _aws_ecr_login cfg environ bws_secrets tool loginExitCode
        = ([Ev.credentialRequest], .returned true) := by
  intro e
  unfold _aws_ecr_login
  simp [ensureAwsTool, hinst, hacct, hreg, hak, hsk]

/-- Witness for C9: a fully configured login run returns `True` even
when the login subprocess exits with status 255. -/
theorem aws_ecr_login_ignores_exit_status_witness :
    _aws_ecr_login cfgFullAws environAwsCreds [] toolPresent 255
      = ([Ev.credentialRequest], .returned true) :=
  aws_ecr_login_ignores_exit_status cfgFullAws environAwsCreds [] toolPresent
    rfl rfl rfl rfl rfl 255

/-! ## C4 — secret listing never raising -/

/-- `processSecrets` on a list of dict elements whose `key` fields are
hashable returns normally. -/
theorem processSecrets_ok (elems : List JVal)
    (h : ∀ x ∈ elems, ∃ fs, x = JVal.obj fs ∧
      hashable ((fs.lookup "key").getD .null) = true) :
    ∀ acc, isOkE (processSecrets elems acc) = true := by
  induction elems with
  | nil => intro acc; rfl
  | cons x rest ih =>
    intro acc
    obtain ⟨fs, rfl, hh⟩ := h x (List.mem_cons_self x rest)
    have ih' := ih fun y hy => h y (List.mem_cons_of_mem _ hy)
    simp only [processSecrets]
    by_cases ht : (truthy ((fs.lookup "key").getD .null) &&
        truthy ((fs.lookup "value").getD .null)) = true
    · rw [if_pos ht, if_pos hh]
      exact ih' _
    · rw [if_neg ht]
      exact ih' _

/-- C4 counterexample: the claim says `_load_secrets_from_bws` never
raises an exception to its caller, whatever the shape of the command
output.  But with a token and the CLI present, output that parses as the
JSON number `5` makes `for secret in secrets_list` raise a `TypeError`
that no handler catches (the source catches only `CalledProcessError`
and `JSONDecodeError`), so the exception propagates to the caller. -/
theorem load_secrets_from_bws_raises_cex :
    _load_secrets_from_bws (some "tok0") true (some (JVal.num 5))
      = .error PyErr.typeError := by
  rfl

/-- C4 (amended): `_load_secrets_from_bws` returns an empty map when the
token is absent, when the CLI is unavailable, and when stdout fails to
parse as JSON (which covers a failing command, since the subprocess is
run without `check=True`); output that is a JSON array of objects with
hashable keys is processed without raising.  But output that parses to a
non-iterable JSON value (e.g. a number) raises an uncaught `TypeError`
to the caller. -/
theorem load_secrets_from_bws_failure_modes (token : Option String)
    (toolOk : Bool) :
    (pyFalsyStr token = true → ∀ parsed,
      _load_secrets_from_bws token toolOk parsed = .ok []) ∧
    (toolOk = false → ∀ parsed,
      _load_secrets_from_bws token toolOk parsed = .ok []) ∧
    (_load_secrets_from_bws token toolOk none = .ok []) ∧
    (∀ xs, (∀ x ∈ xs, ∃ fs, x = JVal.obj fs ∧
        hashable ((fs.lookup "key").getD .null) = true) →
      isOkE (_load_secrets_from_bws token toolOk (some (.arr xs))) = true) ∧
    (pyFalsyStr token = false → toolOk = true → ∀ n : Int,
      _load_secrets_from_bws token toolOk (some (.num n))
        = .error PyErr.typeError) := by
  refine ⟨?_, ?_, ?_, ?_, ?_⟩
  · intro h parsed
    simp [_load_secrets_from_bws, h]
  · intro h parsed
    simp [_load_secrets_from_bws, h]
  · by_cases h : pyFalsyStr token = true
    · simp [_load_secrets_from_bws, h]
    · cases toolOk <;> simp [_load_secrets_from_bws, h]
  · intro xs hxs
    by_cases h : pyFalsyStr token = true
    · simp [_load_secrets_from_bws, h, isOkE]
    · cases toolOk <;>
        simp [_load_secrets_from_bws, h, isOkE, iterElems]
      exact processSecrets_ok xs hxs []
  · intro h h2 n
    subst h2
    simp [_load_secrets_from_bws, h, iterElems]

/-- Witness for C4's amended theorem at concrete inputs: the three
empty-map cases, a well-shaped listing, and the raising number case. -/
theorem load_secrets_from_bws_failure_modes_witness :
    _load_secrets_from_bws none true (some (JVal.arr [JVal.num 1])) = .ok [] ∧
    _load_secrets_from_bws (some "tok1") false (some JVal.null) = .ok [] ∧
    _load_secrets_from_bws (some "tok1") true none = .ok [] ∧
    isOkE (_load_secrets_from_bws (some "tok1") true
      (some (JVal.arr [JVal.obj [("key", JVal.str "A"), ("value", JVal.str "B")]])))
      = true ∧
    _load_secrets_from_bws (some "tok1") true (some (JVal.num 3))
      = .error PyErr.typeError := by
  refine ⟨(load_secrets_from_bws_failure_modes none true).1 rfl _,
    (load_secrets_from_bws_failure_modes (some "tok1") false).2.1 rfl _,
    (load_secrets_from_bws_failure_modes (some "tok1") true).2.2.1,
    (load_secrets_from_bws_failure_modes (some "tok1") true).2.2.2.1 _ ?_,
    (load_secrets_from_bws_failure_modes (some "tok1") true).2.2.2.2 (by decide) rfl 3⟩
  intro x hx
  rcases List.mem_singleton.1 hx with rfl
  exact ⟨_, rfl, rfl⟩

/-! ## C10 — every returned secret entry is truthy -/

/-- Inserting a truthy pair into a dict of truthy pairs yields a dict of
truthy pairs. -/
theorem pyInsert_truthy (d : List (JVal × JVal)) (k v : JVal)
    (hd : ∀ p ∈ d, truthy p.1 = true ∧ truthy p.2 = true)
    (hk : truthy k = true) (hv : truthy v = true) :
    ∀ p ∈ pyInsert d k v, truthy p.1 = true ∧ truthy p.2 = true := by
  intro p hp
  unfold pyInsert at hp
  split at hp
  · rcases List.mem_map.1 hp with ⟨q, hq, rfl⟩
    by_cases h : scalarEq q.1 k = true
    · simp only [h, if_true]
      exact ⟨hk, hv⟩
    · simp only [h, if_false]
      exact hd q hq
  · rcases List.mem_append.1 hp with h' | h'
    · exact hd p h'
    · rcases List.mem_singleton.1 h' with rfl
      exact ⟨hk, hv⟩

/-- The loop of `_load_secrets_from_bws` preserves truthiness of every
accumulated entry. -/
theorem processSecrets_truthy (elems : List JVal) :
    ∀ acc m, (∀ p ∈ acc, truthy p.1 = true ∧ truthy p.2 = true) →
    processSecrets elems acc = .ok m →
    ∀ p ∈ m, truthy p.1 = true ∧ truthy p.2 = true := by
  induction elems with
  | nil =>
    intro acc m hacc h
    cases h
    exact hacc
  | cons x rest ih =>
    intro acc m hacc h
    cases x with
    | obj fs =>
      simp only [processSecrets] at h
      by_cases ht : (truthy ((fs.lookup "key").getD .null) &&
          truthy ((fs.lookup "value").getD .null)) = true
      · rw [if_pos ht] at h
        by_cases hh : hashable ((fs.lookup "key").getD .null) = true
        · rw [if_pos hh] at h
          exact ih _ _ (pyInsert_truthy acc _ _ hacc
            (Bool.and_eq_true_iff.1 ht).1 (Bool.and_eq_true_iff.1 ht).2) h
        · rw [if_neg hh] at h
          cases h
      · rw [if_neg ht] at h
        exact ih _ _ hacc h
    | null => cases h
    | bool b => cases h
    | num n => cases h
    | str s => cases h
    | arr xs => cases h

/-- C10: every entry of a map normally returned by
`_load_secrets_from_bws` has a truthy (non-empty) key and a truthy
(non-empty) value — records whose `key` or `value` field is missing,
empty or otherwise falsy are silently dropped by the
`if key and value` filter. -/
theorem load_secrets_entries_truthy (token : Option String) (toolOk : Bool)
    (parsed : Option JVal) (m : List (JVal × JVal))
    (h : _load_secrets_from_bws token toolOk parsed = .ok m) :
    ∀ p ∈ m, truthy p.1 = true ∧ truthy p.2 = true := by
  unfold _load_secrets_from_bws at h
  by_cases h1 : pyFalsyStr token = true
  · rw [if_pos h1] at h
    cases h
    simp
  · rw [if_neg h1] at h
    cases toolOk with
    | false =>
      simp at h
      subst h
      simp
    | true =>
      simp only [Bool.not_true, if_false, Bool.false_eq_true] at h
      cases parsed with
      | none =>
        cases h
        simp
      | some j =>
        have h2 : (match iterElems j with
            | Except.error e => (Except.error e : Except PyErr (List (JVal × JVal)))
            | Except.ok elems => processSecrets elems []) = Except.ok m := h
        rcases hi : iterElems j with e | elems
        · rw [hi] at h2
          cases h2
        · rw [hi] at h2
          exact processSecrets_truthy elems [] m (by simp) h2

/-- Witness for C10: a two-record listing with one falsy-valued record
returns only the truthy entry, and that entry's key and value are
truthy. -/
theorem load_secrets_entries_truthy_witness :
    _load_secrets_from_bws (some "tk") true
      (some (JVal.arr
        [JVal.obj [("key", JVal.str "USER"), ("value", JVal.str "alice")],
         JVal.obj [("key", JVal.str "EMPTY"), ("value", JVal.str "")]]))
      = .ok [(JVal.str "USER", JVal.str "alice")] ∧
    truthy (JVal.str "USER") = true ∧ truthy (JVal.str "alice") = true := by
  have heq : _load_secrets_from_bws (some "tk") true
      (some (JVal.arr
        [JVal.obj [("key", JVal.str "USER"), ("value", JVal.str "alice")],
         JVal.obj [("key", JVal.str "EMPTY"), ("value", JVal.str "")]]))
      = .ok [(JVal.str "USER", JVal.str "alice")] := by rfl
  have h := load_secrets_entries_truthy _ _ _ _ heq
    (JVal.str "USER", JVal.str "alice") (List.mem_singleton.2 rfl)
  exact ⟨heq, h.1, h.2⟩

/-! ## C7 — removal-after-deployment round trip -/

/-- C7 counterexample: the claim says a removal immediately following a
deployment leaves both destination directories in the state they were in
before the deployment.  Deploying into a dags directory already holding
`preexisting.txt` and then removing restores the empty placeholder
state, not the original one: `preexisting.txt` is gone. -/
theorem remove_after_deploy_roundtrip_cex :
    _deploy_job_and_dag_files ["dag_a.py"] ["job_a.zip"] ["preexisting.txt"] []
      = (["preexisting.txt", "dag_a.py"], ["job_a.zip"]) ∧
    _remove_job_and_dag_files ["preexisting.txt", "dag_a.py"] ["job_a.zip"]
      = ([], []) ∧
    (([], []) : List String × List String) ≠ (["preexisting.txt"], []) := by
  refine ⟨rfl, rfl, by decide⟩

/-- C7 (amended): a removal immediately following a deployment leaves
both destination directories in the EMPTY PLACEHOLDER state — in
particular no rendered descriptor or job file remains — and this equals
the pre-deployment state exactly when the directories started out in
the placeholder (empty) state. -/
theorem remove_after_deploy_roundtrip
    (renderedDags renderedJobs dags jobs : List String) :
    (_remove_job_and_dag_files
        (_deploy_job_and_dag_files renderedDags renderedJobs dags jobs).1
        (_deploy_job_and_dag_files renderedDags renderedJobs dags jobs).2)
      = ([], []) ∧
    (∀ f ∈ renderedDags, f ∉ (_remove_job_and_dag_files
        (_deploy_job_and_dag_files renderedDags renderedJobs dags jobs).1
        (_deploy_job_and_dag_files renderedDags renderedJobs dags jobs).2).1) ∧
    (∀ f ∈ renderedJobs, f ∉ (_remove_job_and_dag_files
        (_deploy_job_and_dag_files renderedDags renderedJobs dags jobs).1
        (_deploy_job_and_dag_files renderedDags renderedJobs dags jobs).2).2) ∧
    (dags = [] → jobs = [] →
      _remove_job_and_dag_files
        (_deploy_job_and_dag_files renderedDags renderedJobs dags jobs).1
        (_deploy_job_and_dag_files renderedDags renderedJobs dags jobs).2
      = (dags, jobs)) := by
  refine ⟨rfl, ?_, ?_, ?_⟩
  · intro f _
    simp [_remove_job_and_dag_files]
  · intro f _
    simp [_remove_job_and_dag_files]
  · intro hd hj
    rw [hd, hj]
    rfl

/-- Witness for C7's amended theorem at a concrete deployment into
initially empty (placeholder-state) directories. -/
theorem remove_after_deploy_roundtrip_witness :
    (_remove_job_and_dag_files
        (_deploy_job_and_dag_files ["dag_b.py"] ["job_b.zip"] [] []).1
        (_deploy_job_and_dag_files ["dag_b.py"] ["job_b.zip"] [] []).2)
      = ([], []) ∧
    "dag_b.py" ∉ (_remove_job_and_dag_files
        (_deploy_job_and_dag_files ["dag_b.py"] ["job_b.zip"] [] []).1
        (_deploy_job_and_dag_files ["dag_b.py"] ["job_b.zip"] [] []).2).1 ∧
    "job_b.zip" ∉ (_remove_job_and_dag_files
        (_deploy_job_and_dag_files ["dag_b.py"] ["job_b.zip"] [] []).1
        (_deploy_job_and_dag_files ["dag_b.py"] ["job_b.zip"] [] []).2).2 ∧
    (_remove_job_and_dag_files
        (_deploy_job_and_dag_files ["dag_b.py"] ["job_b.zip"] [] []).1
        (_deploy_job_and_dag_files ["dag_b.py"] ["job_b.zip"] [] []).2)
      = ([], []) := by
  have h := remove_after_deploy_roundtrip ["dag_b.py"] ["job_b.zip"] [] []
  exact ⟨h.1, h.2.1 "dag_b.py" (by simp), h.2.2.1 "job_b.zip" (by simp),
    h.2.2.2 rfl rfl⟩

end Sbayt
